import Mathlib

/- Shallow embedding of the WhatsApp business-directory bot:
   src/app.py (webhook router, registration dialogue, presenters) and
   src/postgresql_config.py (DatabaseManager over a PostgreSQL table).
   Python strings are Lean `String`s; the mutable `user_sessions` dict is an
   explicit store threaded through the functions; the database is a table
   plus oracles for full-text search, the serial id and connection failure. -/

namespace WhatsAppBot

/-! ### String helpers modelling Python primitives -/
/-- Python `str.strip()` whitespace set (ASCII fragment). -/
def isPySpace (c : Char) : Bool :=
  c = ' ' || c = '\t' || c = '\n' || c = '\r' || c = '\x0b' || c = '\x0c'

/-- Python `str.strip()` on a character list. -/
def stripList (cs : List Char) : List Char :=
  ((cs.dropWhile isPySpace).reverse.dropWhile isPySpace).reverse

/-- Python `str.strip()`. -/
def pyStrip (s : String) : String := ⟨stripList s.data⟩

/-- Python `str.lower()` (ASCII). -/
def lowerList (cs : List Char) : List Char := cs.map Char.toLower

/-- Python `str.lower()`. -/
def pyLower (s : String) : String := ⟨lowerList s.data⟩

/-- Python `str.split(',')`: split at every comma, keeping empty pieces. -/
def splitOnComma : List Char → List (List Char)
  | [] => [[]]
  | c :: cs =>
    if c = ',' then [] :: splitOnComma cs
    else
      match splitOnComma cs with
      | [] => [[c]]
      | t :: ts => (c :: t) :: ts

/-- Substring test on character lists. -/
def containsL (s p : List Char) : Bool :=
  (List.range (s.length + 1)).any fun i => decide ((s.drop i).take p.length = p)

/-- `piece` occurs somewhere inside `s`: the meaning of "the reply shows ...". -/
def Shows (s piece : String) : Prop :=
  ∃ l r, s.data = l ++ piece.data ++ r

/-- `%` consumes any prefix: the rest of the pattern must match some suffix. -/
def likeStar (f : List Char → Bool) : List Char → Bool
  | [] => f []
  | c :: cs => f (c :: cs) || likeStar f cs

/-- SQL `LIKE` with PostgreSQL defaults: `%` matches any sequence, `_` any
single character, backslash escapes the next pattern character. -/
def likeMatch : List Char → List Char → Bool
  | [], s => s.isEmpty
  | p :: ps, s =>
    if p = '%' then likeStar (likeMatch ps) s
    else if p = '\\' then
      (match ps, s with
       | q :: ps', c :: cs => decide (c = q) && likeMatch ps' cs
       | _, _ => false)
    else if p = '_' then
      (match s with
       | [] => false
       | _ :: cs => likeMatch ps cs)
    else
      (match s with
       | [] => false
       | c :: cs => decide (c = p) && likeMatch ps cs)

/-! ### Input validators (src/app.py lines 36-46) -/
/-- Keep digits and "+", as `re.sub` with the class of non-(digit, plus) does. -/
def phoneClean (phone : String) : List Char :=
  phone.data.filter fun c => c.isDigit || c = '+'

/-- Python `str.startswith("+")` on the cleaned characters. -/
def startsWithPlus : List Char → Bool
  | [] => false
  | c :: _ => c = '+'

/-- Python `str.isdigit()` (ASCII): nonempty and all digits. -/
def pyIsDigit (cs : List Char) : Bool := !cs.isEmpty && cs.all Char.isDigit

/-- `validate_phone` from src/app.py: strip to digits and "+", require
length at least 10 and a leading "+" or an all-digit result. -/
def validate_phone (phone : String) : Bool :=
  let cleaned := phoneClean phone
  decide (10 ≤ cleaned.length) && (startsWithPlus cleaned || pyIsDigit cleaned)

/-- Character class of the regex local part. -/
def isLocalChar (c : Char) : Bool :=
  c.isAlphanum || c = '.' || c = '_' || c = '%' || c = '+' || c = '-'

/-- Character class of the regex domain part. -/
def isDomainChar (c : Char) : Bool := c.isAlphanum || c = '.' || c = '-'

/-- Split the character list at its first `@`, as the anchored regex does
(the local-part class cannot contain `@`). -/
def splitAtAmp : List Char → Option (List Char × List Char)
  | [] => none
  | c :: cs =>
    if c = '@' then some ([], cs)
    else
      match splitAtAmp cs with
      | some (l, r) => some (c :: l, r)
      | none => none

/-- The final regex label: two or more alphabetic characters. -/
def tldOk (t : List Char) : Bool := decide (2 ≤ t.length) && t.all Char.isAlpha

/-- One backtracking position for the domain of the regex: a dot at index `i`,
a nonempty domain of domain characters before it, a valid label after it. -/
def domSplitOk (rest : List Char) (i : Nat) : Bool :=
  match rest.drop i with
  | '.' :: t => decide (1 ≤ i) && (rest.take i).all isDomainChar && tldOk t
  | _ => false

/-- The part after `@` matches the regex tail at some backtracking position. -/
def matchesAfterAmp (rest : List Char) : Bool :=
  (List.range rest.length).any (domSplitOk rest)

/-- Full anchored match of the email regex of src/app.py line 45. -/
def emailCoreMatch (cs : List Char) : Bool :=
  match splitAtAmp cs with
  | some (l, r) => decide (l ≠ []) && l.all isLocalChar && matchesAfterAmp r
  | none => false

/-- Python re `$` also matches just before one newline ending the string. -/
def stripDollarNewline (cs : List Char) : List Char :=
  if cs.getLastD 'x' = '\n' then cs.dropLast else cs

/-- `validate_email` from src/app.py: `re.match` of the anchored pattern
against the whole string. -/
def validate_email (email : String) : Bool :=
  emailCoreMatch (stripDollarNewline email.data)

/-! ### Sessions (the `user_sessions` dict of src/app.py) -/
/-- The `step` tags of a registration session. -/
inductive Step
  | name
  | address
  | phone
  | email
  | keywords
deriving DecidableEq

/-- Position of a step in the fixed forward order. -/
def stepIdx : Step → Nat
  | .name => 0
  | .address => 1
  | .phone => 2
  | .email => 3
  | .keywords => 4

/-- The `data` dict accumulated during registration: a key is present
(`some`) once its step completed. -/
structure SessionData where
  name : Option String := none
  address : Option String := none
  phone : Option String := none
  email : Option String := none
  keywords : Option (List String) := none
deriving DecidableEq

/-- One entry of `user_sessions`. -/
structure Session where
  step : Step
  data : SessionData
deriving DecidableEq

/-- The `user_sessions` mapping from sender address to session. -/
def SessionStore : Type := String → Option Session

/-- `user_sessions[sender] = sess`. -/
def setSession (store : SessionStore) (sender : String) (sess : Session) :
    SessionStore :=
  fun s => if s = sender then some sess else store s

/-- `del user_sessions[sender]`. -/
def delSession (store : SessionStore) (sender : String) : SessionStore :=
  fun s => if s = sender then none else store s

/-- `sender in user_sessions`. -/
def hasSession (store : SessionStore) (sender : String) : Bool :=
  (store sender).isSome

/-! ### The businesses table and DatabaseManager (src/postgresql_config.py) -/
/-- One row of the `businesses` table. `registered_at` is a timestamp
(larger = more recent). -/
structure Row where
  id : Nat
  name : String
  name_lower : String
  address : String
  phone : String
  email : String
  keywords : List String
  registered_by : String
  registered_at : Nat
  status : String
deriving DecidableEq

/-- The PostgreSQL backend: the table plus oracles for the engine parts the
SQL delegates to. `fts` is the truth of
`to_tsvector(name || ' ' || address) @@ plainto_tsquery(query)`, `connFail`
makes every cursor raise, `nextId` is the SERIAL id RETURNING yields, and
`fmtDate` is `datetime.strftime("%b %d")`. -/
structure PgDB where
  table : List Row
  fts : Row → String → Bool
  connFail : Bool
  nextId : Nat
  fmtDate : Nat → String

/-- `%s = ANY(keywords)` with parameter `query.lower()`. -/
def kwArrayMatch (query : String) (row : Row) : Bool :=
  decide (pyLower query ∈ row.keywords)

/-- `name_lower LIKE %s` with parameter `'%' + query.lower() + '%'`. -/
def nameLikeMatch (query : String) (row : Row) : Bool :=
  likeMatch ('%' :: (pyLower query).data ++ ['%']) row.name_lower.data

/-- The CASE expression computing `relevance_score`. -/
def relevance_score (query : String) (row : Row) : Nat :=
  if kwArrayMatch query row then 3
  else if nameLikeMatch query row then 2
  else 1

/-- The WHERE clause of `search_businesses` (match disjunction and
`status = 'active'`). -/
def searchWhere (db : PgDB) (query : String) (row : Row) : Bool :=
  (kwArrayMatch query row || nameLikeMatch query row || db.fts row query) &&
    row.status == "active"

/-- `ORDER BY relevance_score DESC, registered_at DESC` as a total preorder. -/
def rankLe (query : String) (a b : Row) : Bool :=
  decide (relevance_score query b < relevance_score query a) ||
    (decide (relevance_score query a = relevance_score query b) &&
      decide (b.registered_at ≤ a.registered_at))

/-- `rankLe` as a relation for sorting. -/
def rankRel (query : String) (a b : Row) : Prop := rankLe query a b = true

instance (query : String) : DecidableRel (rankRel query) := fun a b => by
  unfold rankRel; infer_instance

/-- `ORDER BY registered_at DESC` as a total preorder. -/
def recentRel (a b : Row) : Prop := (decide (b.registered_at ≤ a.registered_at) : Bool) = true

instance : DecidableRel recentRel := fun a b => by
  unfold recentRel; infer_instance

/-- Lexicographic comparison of character lists by code point, standing in
for the text collation of `ORDER BY keyword`. -/
def strLeB : List Char → List Char → Bool
  | [], _ => true
  | _ :: _, [] => false
  | c :: cs, d :: ds =>
    if c.toNat < d.toNat then true
    else if d.toNat < c.toNat then false
    else strLeB cs ds

/-- `ORDER BY frequency DESC, keyword` as a total preorder. -/
def popRel (a b : String × Nat) : Prop :=
  (decide (b.2 < a.2) || (decide (a.2 = b.2) && strLeB a.1.data b.1.data)) = true

instance : DecidableRel popRel := fun a b => by
  unfold popRel; infer_instance

/-- The dict `complete_registration` hands to `add_business`. -/
structure BusinessDoc where
  name : String
  address : String
  phone : String
  email : String
  keywords : List String
  registered_by : String
deriving DecidableEq

namespace DatabaseManager

/-- `DatabaseManager.search_businesses`: on any backend exception return `[]`;
otherwise the WHERE-filtered rows ordered by
`relevance_score DESC, registered_at DESC`, capped at `limit`. -/
def search_businesses (db : PgDB) (query : String) (limit : Nat) : List Row :=
  if db.connFail then []
  else ((db.table.filter (searchWhere db query)).insertionSort (rankRel query)).take limit

/-- `DatabaseManager.search_by_location`: `address ILIKE '%location%'` and
active, ordered by `registered_at DESC`, capped at `limit`; `[]` on error. -/
def search_by_location (db : PgDB) (location_query : String) (limit : Nat) :
    List Row :=
  if db.connFail then []
  else ((db.table.filter fun row =>
      likeMatch ('%' :: (pyLower location_query).data ++ ['%'])
          (pyLower row.address).data &&
        row.status == "active").insertionSort recentRel).take limit

/-- `DatabaseManager.get_business_count`: count of active rows, 0 on error. -/
def get_business_count (db : PgDB) : Nat :=
  if db.connFail then 0
  else (db.table.filter fun row => row.status == "active").length

/-- `DatabaseManager.get_recent_businesses`: name and timestamp of the most
recently registered active rows, `[]` on error. -/
def get_recent_businesses (db : PgDB) (limit : Nat) : List (String × Nat) :=
  if db.connFail then []
  else (((db.table.filter fun row =>
      row.status == "active").insertionSort recentRel).take limit).map
    fun row => (row.name, row.registered_at)

/-- `DatabaseManager.get_popular_keywords`: keyword frequencies over active
rows, ordered by frequency then keyword, `[]` on error. -/
def get_popular_keywords (db : PgDB) (limit : Nat) : List (String × Nat) :=
  if db.connFail then []
  else
    let allk := (db.table.filter fun row => row.status == "active").flatMap
      fun row => row.keywords
    ((allk.eraseDups.map fun k => (k, allk.count k)).insertionSort popRel).take
      limit

/-- `DatabaseManager.add_business`: the one method that re-raises its backend
exception; on success it returns the new SERIAL id. -/
def add_business (db : PgDB) (_doc : BusinessDoc) : Except Unit Nat :=
  if db.connFail then .error () else .ok db.nextId

end DatabaseManager

/-- A backend with an empty catalog and no failure, for comparison. -/
def emptyDB : PgDB :=
  { table := [], fts := fun _ _ => false, connFail := false, nextId := 1,
    fmtDate := fun _ => "" }

/-! ### Reply texts (src/app.py) -/
def welcomeMsg : String :=
  "👋 Welcome to Business Directory!\n\n🔍 *Search*: Send keywords like 'pizza', 'hotel'\n📝 *Register*: Send 'register' to add your business\n❓ *Help*: Send 'help' for more options"

def helpMsg : String :=
  "🏢 *Business Directory Bot*\n\n🔍 *SEARCH FOR BUSINESSES:*\nSend keywords like:\n• restaurant, pizza, food\n• hotel, accommodation  \n• pharmacy, medicine\n• repair, tech, service\n\n📍 *SEARCH BY LOCATION:*\n• \"near downtown\" - Find businesses near downtown\n• \"near airport\" - Find businesses near airport\n\n📝 *REGISTER YOUR BUSINESS:*\n• Send 'register' to add your business\n• It's FREE and takes 2 minutes!\n\n❓ *OTHER COMMANDS:*\n• 'help' - Show this menu\n• 'contact' - Get support\n• 'stats' - Directory statistics"

def contactMsg : String :=
  "📞 *Need Help?*\n\nFor support or questions:\n• Email: support@yourdomain.com\n• Reply 'help' for commands"

def regStartMsg : String :=
  "📝 *Business Registration*\n\nLet's add your business to our directory!\n\n*Step 1 of 5:* What's your business name?\n\nExample: \"Mario's Pizza Restaurant\"\n\n💡 Type 'cancel' anytime to stop registration."

def cancelMsg : String :=
  "❌ Registration cancelled. Send 'register' to start again or 'help' for other options."

def nameWarn : String :=
  "⚠️ Business name seems too short. Please enter your full business name:"

def nameOkMsg (n : String) : String :=
  "✅ Business name: " ++ n ++ "\n\n*Step 2 of 5:* What's your business address?\n\nExample: \"123 Main Street, Downtown, City\"\n\nInclude area/neighborhood for better visibility!"

def addrWarn : String :=
  "⚠️ Please provide a more complete address including street and area:"

def addrOkMsg : String :=
  "✅ Address saved!\n\n*Step 3 of 5:* What's your business phone number?\n\nExample: \"+1234567890\" or \"0712345678\"\n\nThis helps customers contact you directly."

def phoneWarn : String :=
  "⚠️ Please enter a valid phone number:\n\nExamples:\n• +1234567890\n• 0712345678\n• 555-123-4567"

def phoneOkMsg : String :=
  "✅ Phone number saved!\n\n*Step 4 of 5:* What's your business email? (Optional)\n\nExample: \"info@mybusiness.com\"\n\n💡 Send 'skip' if you don't have a business email."

def emailWarn : String :=
  "⚠️ Please enter a valid email address or send 'skip':\n\nExample: info@mybusiness.com"

def emailOkMsg : String :=
  "✅ Email saved!\n\n*Step 5 of 5:* What keywords describe your business?\n\nSeparate with commas. This helps customers find you!\n\nExamples:\n• \"pizza, restaurant, italian, delivery\"\n• \"hotel, accommodation, lodging\"\n• \"pharmacy, medicine, health, drugs\"\n\n💡 Include 3-8 relevant keywords."

def kwWarn : String :=
  "⚠️ Please provide at least 2 keywords, separated by commas:\n\nExample: restaurant, pizza, delivery, italian"

/-- Python `", ".join`. -/
def commaJoin : List String → String
  | [] => ""
  | [k] => k
  | k :: ks => k ++ ", " ++ commaJoin ks

def confirmationMsg (n a p e : String) (kws : List String) (k0 : String)
    (bid : Nat) : String :=
  "🎉 *Registration Complete!*\n\nYour business has been added to our directory:\n\n🏢 *" ++
    n ++ "*\n📍 " ++ a ++ "\n📞 " ++ p ++ "\n📧 " ++ e ++ "\n🏷️ Keywords: " ++
    commaJoin kws ++
    "\n\n✅ Customers can now find your business by searching for any of your keywords!\n\n💡 *Tips:*\n• Share this bot with customers\n" ++
    "• Tell them to search: " ++
    k0 ++
    "\n• Need changes? Contact support\n\nThank you for joining our directory! 🙏\n\nBusiness ID: #" ++
    toString bid

def regFailMsg : String :=
  "❌ Sorry, there was an error completing your registration. Please try again later or contact support."

def genericApology : String :=
  "Sorry, something went wrong. Please try again or send 'help' for assistance."

def searchApologyMsg : String :=
  "Sorry, there was an error searching. Please try again."

def locApologyMsg : String :=
  "Sorry, there was an error searching by location. Please try again."

def noResultsMsg (query : String) : String :=
  "❌ No businesses found for '" ++ query ++
    "'.\n\n💡 *Try these keywords:*\n• restaurant, pizza, food\n• hotel, accommodation\n• pharmacy, medicine\n• repair, service\n\n🏢 *Own a business?*\nSend 'register' to add it FREE!"

def noLocResultsMsg (location : String) : String :=
  "📍 No businesses found near '" ++ location ++
    "'.\n\n💡 *Try searching by:*\n• Business type: restaurant, hotel, pharmacy\n• Different location: downtown, airport, mall\n• Send 'register' to add your business"

/-! ### Search presenters (src/app.py lines 156-194 and 364-406) -/
/-- One record of the keyword-search reply: name, address, phone, email
when it is not the sentinel. Each parenthesised group is one `reply +=`
line of the source. -/
def blockKW (i : Nat) (b : Row) : String :=
  (toString i ++ ". *" ++ b.name ++ "*\n") ++
    ("📍 " ++ b.address ++ "\n") ++
    ("📞 " ++ b.phone ++ "\n") ++
    (if b.email ≠ "Not provided" then "📧 " ++ b.email ++ "\n" else "") ++ "\n"

/-- The `enumerate(results[:5], 1)` loop of the keyword search. -/
def renderBlocksKW : Nat → List Row → String
  | _, [] => ""
  | i, b :: rest => blockKW i b ++ renderBlocksKW (i + 1) rest

def renderSearchReply (query : String) (results : List Row) : String :=
  ("🔍 Found " ++ toString results.length ++ " business(es) for '" ++ query ++
      "':\n\n") ++
    renderBlocksKW 1 (results.take 5) ++
    (if 5 < results.length then
      ("... and " ++ toString (results.length - 5) ++ " more results") ++
        ".\n\n"
    else "") ++
    "💡 Can't find what you're looking for?\n• Try different keywords\n• Send 'register' to add your business"

/-- One record of the location-search reply: name, address, phone, first
three keywords when there are any. -/
def blockLoc (i : Nat) (b : Row) : String :=
  (toString i ++ ". *" ++ b.name ++ "*\n") ++
    ("📍 " ++ b.address ++ "\n") ++
    ("📞 " ++ b.phone ++ "\n") ++
    (if b.keywords ≠ [] then "🏷️ " ++ commaJoin (b.keywords.take 3) ++ "\n"
     else "") ++ "\n"

/-- The `enumerate(results[:5], 1)` loop of the location search. -/
def renderBlocksLoc : Nat → List Row → String
  | _, [] => ""
  | i, b :: rest => blockLoc i b ++ renderBlocksLoc (i + 1) rest

def renderLocationReply (location : String) (results : List Row) : String :=
  ("📍 Found " ++ toString results.length ++ " business(es) near '" ++
      location ++ "':\n\n") ++
    renderBlocksLoc 1 (results.take 5) ++
    (if 5 < results.length then
      ("... and " ++ toString (results.length - 5) ++ " more results") ++
        ".\n\n"
    else "") ++
    "💡 Try searching by business type too!"

/-- `search_businesses` of src/app.py (the presenter): fetch with limit 10,
render, or the no-result text. Its `except` branch (`searchApologyMsg`) is
unreachable: the store layer already returns `[]` on backend errors. -/
def search_businesses (db : PgDB) (query : String) : String :=
  let results := DatabaseManager.search_businesses db query 10
  if results = [] then noResultsMsg query else renderSearchReply query results

/-- `search_by_location` of src/app.py (the presenter). Its `except` branch
(`locApologyMsg`) is likewise unreachable. -/
def search_by_location (db : PgDB) (location : String) : String :=
  let results := DatabaseManager.search_by_location db location 10
  if results = [] then noLocResultsMsg location
  else renderLocationReply location results

/-- Lines of the `recent_businesses` loop of `show_statistics`. -/
def recentLines (db : PgDB) : List (String × Nat) → String
  | [] => ""
  | (n, t) :: rest => "• " ++ n ++ " (" ++ db.fmtDate t ++ ")\n" ++
      recentLines db rest

/-- Lines of the `popular_keywords` loop of `show_statistics`. -/
def popularLines : List (String × Nat) → String
  | [] => ""
  | (k, c) :: rest => "• " ++ k ++ " (" ++ toString c ++ ")\n" ++
      popularLines rest

/-- `show_statistics` of src/app.py; the store layer absorbs backend errors,
so the `except` branch is unreachable in the model. -/
def show_statistics (db : PgDB) : String :=
  let total := DatabaseManager.get_business_count db
  let recent := DatabaseManager.get_recent_businesses db 3
  let popular := DatabaseManager.get_popular_keywords db 5
  "📊 *Directory Statistics*\n\n" ++ "🏢 Total Businesses: " ++ toString total ++
      "\n\n" ++
    (if recent ≠ [] then "🆕 *Recently Added:*\n" ++ recentLines db recent
     else "") ++
    (if popular ≠ [] then "\n🔥 *Popular Categories:*\n" ++ popularLines popular
     else "") ++
    "\n💡 Send 'register' to add your business FREE!"

/-! ### Dialogue Engine (src/app.py lines 196-362) -/
/-- The keyword parsing of the keywords step: split on commas, strip and
lowercase each token, drop tokens of length at most 1. -/
def parseKeywords (body : String) : List String :=
  let keywords_raw := (splitOnComma body.data).map
    fun t => (⟨lowerList (stripList t)⟩ : String)
  keywords_raw.filter fun k => 1 < k.data.length

/-- `start_registration`: a fresh session at step `name` with empty data. -/
def start_registration (store : SessionStore) (from_number : String) :
    String × SessionStore :=
  (regStartMsg, setSession store from_number ⟨Step.name, {}⟩)

/-- `complete_registration`: build the document, insert, delete the session,
confirm; on any exception the `except` branch deletes the session when it is
still present and replies with the generic failure notice. The `keywords = []`
arm is the `IndexError` of `keywords[0]` raised after insert and delete. -/
def complete_registration (db : PgDB) (store : SessionStore)
    (from_number : String) : String × SessionStore :=
  match store from_number with
  | none => (regFailMsg, store)
  | some sess =>
    match sess.data.name, sess.data.address, sess.data.phone, sess.data.email,
        sess.data.keywords with
    | some n, some a, some p, some e, some kws =>
      match DatabaseManager.add_business db ⟨n, a, p, e, kws, from_number⟩ with
      | .error _ => (regFailMsg, delSession store from_number)
      | .ok bid =>
        match kws with
        | [] => (regFailMsg, delSession store from_number)
        | k0 :: _ => (confirmationMsg n a p e kws k0 bid,
            delSession store from_number)
    | _, _, _, _, _ => (regFailMsg, delSession store from_number)

/-- The Python exceptions the model can raise. -/
inductive PyExn
  | keyError
deriving DecidableEq

/-- `handle_registration_step`: the per-step validation and transition. The
`error` value is the `KeyError` of `user_sessions[from_number]`, possible only
when no session exists (the webhook guards the call). -/
def handle_registration_step (db : PgDB) (store : SessionStore)
    (from_number body : String) : Except PyExn (String × SessionStore) :=
  match store from_number with
  | none => .error .keyError
  | some sess =>
    if pyLower body = "cancel" then
      .ok (cancelMsg, delSession store from_number)
    else
      match sess.step with
      | .name =>
        if (pyStrip body).length < 2 then .ok (nameWarn, store)
        else .ok (nameOkMsg (pyStrip body), setSession store from_number
          ⟨.address, { sess.data with name := some (pyStrip body) }⟩)
      | .address =>
        if (pyStrip body).length < 10 then .ok (addrWarn, store)
        else .ok (addrOkMsg, setSession store from_number
          ⟨.phone, { sess.data with address := some (pyStrip body) }⟩)
      | .phone =>
        if validate_phone body then
          .ok (phoneOkMsg, setSession store from_number
            ⟨.email, { sess.data with phone := some (pyStrip body) }⟩)
        else .ok (phoneWarn, store)
      | .email =>
        if pyLower body = "skip" then
          .ok (emailOkMsg, setSession store from_number
            ⟨.keywords, { sess.data with email := some "Not provided" }⟩)
        else if validate_email body then
          .ok (emailOkMsg, setSession store from_number
            ⟨.keywords, { sess.data with email := some (pyStrip body) }⟩)
        else .ok (emailWarn, store)
      | .keywords =>
        let kws := parseKeywords body
        if kws.length < 2 then .ok (kwWarn, store)
        else .ok (complete_registration db (setSession store from_number
          ⟨.keywords, { sess.data with keywords := some kws }⟩) from_number)

/-! ### Command Router (src/app.py lines 48-119) -/
/-- The body of the webhook's `try` block. -/
def webhookE (db : PgDB) (store : SessionStore) (rawBody from_number : String) :
    Except PyExn (String × SessionStore) :=
  let body := pyStrip rawBody
  if body = "" then .ok (welcomeMsg, store)
  else
    let body_lower := pyLower body
    if hasSession store from_number then
      handle_registration_step db store from_number body
    else if body_lower = "help" ∨ body_lower = "start" ∨ body_lower = "menu" then
      .ok (helpMsg, store)
    else if body_lower = "register" then
      .ok (start_registration store from_number)
    else if body_lower = "contact" then
      .ok (contactMsg, store)
    else if body_lower = "stats" then
      .ok (show_statistics db, store)
    else if body_lower.data.take 5 = "near ".data then
      .ok (search_by_location db (pyStrip ⟨body_lower.data.drop 5⟩), store)
    else
      .ok (search_businesses db body_lower, store)

/-- `whatsapp_webhook`: the `try` body plus the top-level `except` that turns
any escaped exception into the generic apology. -/
def whatsapp_webhook (db : PgDB) (store : SessionStore)
    (rawBody from_number : String) : String × SessionStore :=
  match webhookE db store rawBody from_number with
  | .ok r => r
  | .error _ => (genericApology, store)

/-- A healthy backend with an empty table, used for concrete runs. -/
def dbOkW : PgDB :=
  { table := [], fts := fun _ _ => false, connFail := false, nextId := 7,
    fmtDate := fun _ => "Jan 01" }

/-- A session sitting at the keywords step with all earlier fields filled. -/
def sessC3W : Session :=
  ⟨Step.keywords, ⟨some "Mario's Pizza", some "12 Main St, Downtown",
    some "+15551234567", some "Not provided", none⟩⟩

/-- A store holding `sessC3W` for one sender. -/
def storeC3W : SessionStore :=
  fun s => if s = "whatsapp:+1" then some sessC3W else none

/-- Claim C1 as stated: whenever the sender has an active session the reply
is produced by the step handler, and this holds for an empty or
whitespace-only body too. -/
def ClaimC1Stated : Prop :=
  ∀ (db : PgDB) (store : SessionStore) (rawBody sender : String)
    (sess : Session), store sender = some sess →
    ∃ r, handle_registration_step db store sender (pyStrip rawBody) = .ok r ∧
      whatsapp_webhook db store rawBody sender = r

/-- A store holding a name-step session for sender "u". -/
def storeC1W : SessionStore :=
  fun s => if s = "u" then some ⟨Step.name, {}⟩ else none

/-- The validation failure condition of each step, read off the handler. -/
def rejectedInput : Step → String → Bool
  | .name, body => decide ((pyStrip body).length < 2)
  | .address, body => decide ((pyStrip body).length < 10)
  | .phone, body => !validate_phone body
  | .email, body => !(decide (pyLower body = "skip")) && !validate_email body
  | .keywords, body => decide ((parseKeywords body).length < 2)

/-- A store holding an address-step session for sender "u". -/
def storeC6W : SessionStore :=
  fun s => if s = "u" then some ⟨Step.address, ⟨some "Cafe", none, none, none,
    none⟩⟩ else none

/-- The language of the email regex, stated as the spec words it: a nonempty
local part over its class, `@`, a nonempty domain over its class, a dot, and
a final label of two or more alphabetic characters. -/
def EmailRegexMatch (cs : List Char) : Prop :=
  ∃ lp dom tld, cs = lp ++ '@' :: (dom ++ '.' :: tld) ∧ lp ≠ [] ∧
    (∀ c ∈ lp, isLocalChar c = true) ∧ dom ≠ [] ∧
    (∀ c ∈ dom, isDomainChar c = true) ∧ 2 ≤ tld.length ∧
    (∀ c ∈ tld, c.isAlpha = true)

/-- The behaviour of the email step of the handler. -/
def EmailStepBehaviour : Prop :=
  ∀ (db : PgDB) (store : SessionStore) (sender body : String) (sess : Session),
    store sender = some sess → sess.step = Step.email →
    pyLower body ≠ "cancel" →
    (pyLower body = "skip" →
      handle_registration_step db store sender body = .ok (emailOkMsg,
        setSession store sender ⟨Step.keywords,
          { sess.data with email := some "Not provided" }⟩)) ∧
    (pyLower body ≠ "skip" → validate_email body = true →
      handle_registration_step db store sender body = .ok (emailOkMsg,
        setSession store sender ⟨Step.keywords,
          { sess.data with email := some (pyStrip body) }⟩)) ∧
    (pyLower body ≠ "skip" → validate_email body = false →
      handle_registration_step db store sender body = .ok (emailWarn, store))

/-- Claim C8 as stated: the email-step behaviour, with `validate_email`
accepting a string iff the whole TRIMMED string matches the pattern. -/
def ClaimC8Stated : Prop :=
  EmailStepBehaviour ∧
  ∀ s : String, validate_email s = true ↔ EmailRegexMatch (pyStrip s).data

/-- A store holding an email-step session for sender "u". -/
def storeC8W : SessionStore :=
  fun s => if s = "u" then some ⟨Step.email, ⟨some "Cafe",
    some "1 Long Road, Town", some "+1234567890", none, none⟩⟩ else none

/-- A backend whose every cursor raises. -/
def dbFailW : PgDB :=
  { table := [], fts := fun _ _ => false, connFail := true, nextId := 1,
    fmtDate := fun _ => "" }

/-- Claim C5 as stated: no raw exception reaches the transport, and a
StoreFailure during a presenter call or during the commit is surfaced to the
user as the corresponding generic apology reply. -/
def ClaimC5Stated : Prop :=
  (∀ (db : PgDB) (store : SessionStore) (rawBody sender : String),
    ∃ r, webhookE db store rawBody sender = .ok r) ∧
  (∀ (db : PgDB) (q : String), db.connFail = true →
    search_businesses db q = searchApologyMsg) ∧
  (∀ (db : PgDB) (loc : String), db.connFail = true →
    search_by_location db loc = locApologyMsg) ∧
  (∀ (db : PgDB) (store : SessionStore) (sender : String),
    db.connFail = true →
    (complete_registration db store sender).1 = regFailMsg)

/-- The keyword-search record rendering without the email line. -/
def blockKWPlain (i : Nat) (b : Row) : String :=
  (toString i ++ ". *" ++ b.name ++ "*\n") ++
    ("📍 " ++ b.address ++ "\n") ++
    ("📞 " ++ b.phone ++ "\n") ++ "\n"

/-- The location-search record rendering without the keywords line. -/
def blockLocPlain (i : Nat) (b : Row) : String :=
  (toString i ++ ". *" ++ b.name ++ "*\n") ++
    ("📍 " ++ b.address ++ "\n") ++
    ("📞 " ++ b.phone ++ "\n") ++ "\n"

/-- Claim C2 as stated: both search replies render at most the first five
fetched records (later records only affect the fetched count), append the
"... and N more results" note when more than five were fetched, and show
name, address and phone of each rendered record; up to 3 keywords are shown
for KEYWORD search only, and email only when it is not the sentinel. -/
def ClaimC2Stated : Prop :=
  (∀ (q : String) (rs rs' : List Row), rs.take 5 = rs'.take 5 →
    rs.length = rs'.length →
    renderSearchReply q rs = renderSearchReply q rs') ∧
  (∀ (loc : String) (rs rs' : List Row), rs.take 5 = rs'.take 5 →
    rs.length = rs'.length →
    renderLocationReply loc rs = renderLocationReply loc rs') ∧
  (∀ (q : String) (rs : List Row), 5 < rs.length →
    Shows (renderSearchReply q rs)
      ("... and " ++ toString (rs.length - 5) ++ " more results")) ∧
  (∀ (loc : String) (rs : List Row), 5 < rs.length →
    Shows (renderLocationReply loc rs)
      ("... and " ++ toString (rs.length - 5) ++ " more results")) ∧
  (∀ (q : String) (rs : List Row) (b : Row), b ∈ rs.take 5 →
    Shows (renderSearchReply q rs) b.name ∧
    Shows (renderSearchReply q rs) b.address ∧
    Shows (renderSearchReply q rs) b.phone) ∧
  (∀ (loc : String) (rs : List Row) (b : Row), b ∈ rs.take 5 →
    Shows (renderLocationReply loc rs) b.name ∧
    Shows (renderLocationReply loc rs) b.address ∧
    Shows (renderLocationReply loc rs) b.phone) ∧
  (∀ (q : String) (rs : List Row) (b : Row), b ∈ rs.take 5 →
    b.keywords ≠ [] →
    Shows (renderSearchReply q rs) (commaJoin (b.keywords.take 3))) ∧
  (∀ (q : String) (rs : List Row) (b : Row), b ∈ rs.take 5 →
    b.email ≠ "Not provided" →
    Shows (renderSearchReply q rs) ("📧 " ++ b.email))

/-- An active row whose keywords appear nowhere in its other fields. -/
def rowC2W : Row :=
  { id := 1, name := "A", name_lower := "a", address := "B Street 5, Town",
    phone := "123", email := "Not provided", keywords := ["pizza", "sushi"],
    registered_by := "u", registered_at := 10, status := "active" }

/-- The relevance tiers as the claim words them, with substring
containment. -/
def statedScore (q : String) (row : Row) : Nat :=
  if pyLower q ∈ row.keywords then 3
  else if containsL row.name_lower.data (pyLower q).data = true then 2
  else 1

/-- Claim C4 as stated: only active records that exactly match a keyword,
whose nameLower CONTAINS the query as a substring, or that match full-text;
ordered by those tiers with recency tie-break; capped at the limit. -/
def ClaimC4Stated : Prop :=
  ∀ (db : PgDB) (q : String) (limit : Nat),
    (∀ r ∈ DatabaseManager.search_businesses db q limit,
      r.status = "active" ∧
      (pyLower q ∈ r.keywords ∨
        containsL r.name_lower.data (pyLower q).data = true ∨
        db.fts r q = true)) ∧
    List.Pairwise (fun a b =>
      statedScore q b < statedScore q a ∨
        (statedScore q a = statedScore q b ∧
          b.registered_at ≤ a.registered_at))
      (DatabaseManager.search_businesses db q limit) ∧
    (DatabaseManager.search_businesses db q limit).length ≤ limit

/-- An active row whose name matches `LIKE '%_%'` without containing an
underscore. -/
def rowC4W : Row :=
  { id := 1, name := "Ab", name_lower := "ab", address := "Some Street 1",
    phone := "123", email := "Not provided", keywords := ["kw", "xy"],
    registered_by := "u", registered_at := 5, status := "active" }

/-- A backend holding only `rowC4W`, with no full-text matches. -/
def dbC4W : PgDB :=
  { table := [rowC4W], fts := fun _ _ => false, connFail := false,
    nextId := 2, fmtDate := fun _ => "" }

theorem containsL_iff (s p : List Char) :
    containsL s p = true ↔ ∃ l r, s = l ++ p ++ r := by
  unfold containsL
  rw [List.any_eq_true]
  constructor
  · rintro ⟨i, -, hi⟩
    rw [decide_eq_true_iff] at hi
    refine ⟨s.take i, s.drop (i + p.length), ?_⟩
    have h2 : s.drop i = p ++ s.drop (i + p.length) := by
      conv_lhs => rw [← List.take_append_drop p.length (s.drop i)]
      rw [hi, List.drop_drop, Nat.add_comm]
    conv_lhs => rw [← List.take_append_drop i s, h2]
    rw [List.append_assoc]
  · rintro ⟨l, r, rfl⟩
    refine ⟨l.length, ?_, ?_⟩
    · rw [List.mem_range]
      simp only [List.length_append]
      omega
    · rw [decide_eq_true_iff]
      rw [List.append_assoc, List.drop_left, List.take_left]

theorem shows_iff_containsL (s piece : String) :
    Shows s piece ↔ containsL s.data piece.data = true := by
  rw [containsL_iff]; rfl

theorem data_append (s t : String) : (s ++ t).data = s.data ++ t.data := rfl

theorem shows_append_left {s piece : String} (t : String) (h : Shows s piece) :
    Shows (s ++ t) piece := by
  obtain ⟨l, r, hl⟩ := h
  exact ⟨l, r ++ t.data, by rw [data_append, hl]; simp⟩

theorem shows_append_right {t piece : String} (s : String) (h : Shows t piece) :
    Shows (s ++ t) piece := by
  obtain ⟨l, r, hl⟩ := h
  exact ⟨s.data ++ l, r, by rw [data_append, hl]; simp⟩

theorem shows_refl (s : String) : Shows s s := ⟨[], [], by simp⟩

theorem shows_sandwich (a p b : String) : Shows (a ++ p ++ b) p :=
  shows_append_left b (shows_append_right a (shows_refl p))

/-! ### Helper lemmas -/
theorem startsWithPlus_iff (cs : List Char) :
    startsWithPlus cs = true ↔ cs.head? = some '+' := by
  cases cs with
  | nil => simp [startsWithPlus]
  | cons c cs => simp [startsWithPlus]

theorem pyIsDigit_iff (cs : List Char) :
    pyIsDigit cs = true ↔ cs ≠ [] ∧ ∀ c ∈ cs, c.isDigit = true := by
  simp [pyIsDigit, List.all_eq_true, List.isEmpty_iff]

/-! ### Claim C7 -/
/-- C7 (confirmed): `validate_phone` accepts a string iff, after removing
every character that is not a digit or a plus, the result has length at
least 10 and either starts with a plus or consists entirely of digits;
"+1234567890" and "555-123-4567" are accepted, "12345" is rejected. -/
theorem C7_validate_phone_characterisation :
    (∀ s : String, validate_phone s = true ↔
      10 ≤ (phoneClean s).length ∧
        ((phoneClean s).head? = some '+' ∨
          ∀ c ∈ phoneClean s, c.isDigit = true)) ∧
    validate_phone "+1234567890" = true ∧
    validate_phone "555-123-4567" = true ∧
    validate_phone "12345" = false := by
  refine ⟨fun s => ?_, by decide, by decide, by decide⟩
  unfold validate_phone
  simp only [Bool.and_eq_true, Bool.or_eq_true, decide_eq_true_eq,
    startsWithPlus_iff, pyIsDigit_iff]
  constructor
  · rintro ⟨hlen, hplus | ⟨-, hdig⟩⟩
    · exact ⟨hlen, .inl hplus⟩
    · exact ⟨hlen, .inr hdig⟩
  · rintro ⟨hlen, hplus | hdig⟩
    · exact ⟨hlen, .inl hplus⟩
    · refine ⟨hlen, .inr ⟨?_, hdig⟩⟩
      intro hnil
      rw [hnil] at hlen
      simp at hlen

/-! ### Claim C9 -/
/-- C9 (confirmed): at the keywords step the input is split on commas, each
token trimmed and lowercased, tokens of length at most 1 dropped, and the
step accepts (storing the list and committing) iff at least 2 tokens remain;
"pizza, restaurant, , a, italian" yields exactly
["pizza", "restaurant", "italian"] and is accepted. -/
theorem C9_keywords_step :
    parseKeywords "pizza, restaurant, , a, italian" =
        ["pizza", "restaurant", "italian"] ∧
    2 ≤ (parseKeywords "pizza, restaurant, , a, italian").length ∧
    (∀ db store sender body sess, store sender = some sess →
      sess.step = Step.keywords → pyLower body ≠ "cancel" →
      (2 ≤ (parseKeywords body).length →
        handle_registration_step db store sender body =
          .ok (complete_registration db (setSession store sender
            ⟨Step.keywords,
              { sess.data with keywords := some (parseKeywords body) }⟩)
            sender)) ∧
      ((parseKeywords body).length < 2 →
        handle_registration_step db store sender body = .ok (kwWarn, store))) := by
  refine ⟨by decide, by decide, ?_⟩
  intro db store sender body sess hs hstep hc
  constructor
  · intro hlen
    simp only [handle_registration_step, hs, hstep, if_neg hc,
      if_neg (by omega : ¬ (parseKeywords body).length < 2)]
  · intro hlen
    simp only [handle_registration_step, hs, hstep, if_neg hc, if_pos hlen]

/-! ### Claim C10 -/
/-- C10 (confirmed): every catalog read method catches backend exceptions and
returns its empty default, the same value an empty catalog yields, so a
backend failure is indistinguishable from an empty catalog for those
operations; only `add_business` re-raises (and succeeds otherwise). -/
theorem C10_read_methods_absorb_errors :
    ∀ db : PgDB, db.connFail = true →
      ∀ (q loc : String) (n limit : Nat) (doc : BusinessDoc),
        DatabaseManager.search_businesses db q limit = [] ∧
        DatabaseManager.search_by_location db loc limit = [] ∧
        DatabaseManager.get_recent_businesses db n = [] ∧
        DatabaseManager.get_popular_keywords db n = [] ∧
        DatabaseManager.get_business_count db = 0 ∧
        DatabaseManager.search_businesses db q limit =
          DatabaseManager.search_businesses emptyDB q limit ∧
        DatabaseManager.search_by_location db loc limit =
          DatabaseManager.search_by_location emptyDB loc limit ∧
        DatabaseManager.get_recent_businesses db n =
          DatabaseManager.get_recent_businesses emptyDB n ∧
        DatabaseManager.get_popular_keywords db n =
          DatabaseManager.get_popular_keywords emptyDB n ∧
        DatabaseManager.get_business_count db =
          DatabaseManager.get_business_count emptyDB ∧
        DatabaseManager.add_business db doc = .error () := by
  intro db hfail q loc n limit doc
  simp [DatabaseManager.search_businesses, DatabaseManager.search_by_location,
    DatabaseManager.get_recent_businesses, DatabaseManager.get_popular_keywords,
    DatabaseManager.get_business_count, DatabaseManager.add_business, hfail,
    emptyDB]

/-- Witness for C10 at a concrete failing backend. -/
theorem C10_read_methods_absorb_errors_witness :
    ({ table := [], fts := fun _ _ => false, connFail := true, nextId := 3,
        fmtDate := fun _ => "" } : PgDB).connFail = true ∧
      DatabaseManager.search_businesses
        { table := [], fts := fun _ _ => false, connFail := true, nextId := 3,
          fmtDate := fun _ => "" } "pizza" 10 = [] :=
  ⟨rfl, (C10_read_methods_absorb_errors _ rfl "pizza" "x" 3 10
    ⟨"n", "a", "p", "e", ["k", "w"], "u"⟩).1⟩

/-! ### Claim C3 -/
theorem shows_glue (x t k : String) : Shows (x ++ t ++ k) (t ++ k) :=
  ⟨x.data, [], by simp [data_append, List.append_assoc]⟩

/-- A `register` message from a sender with no session starts a fresh
session at step `name` with empty data. -/
theorem register_starts_fresh (db : PgDB) (store : SessionStore)
    (sender : String) (h : store sender = none) :
    whatsapp_webhook db store "register" sender =
      (regStartMsg, setSession store sender ⟨Step.name, {}⟩) ∧
    setSession store sender ⟨Step.name, {}⟩ sender = some ⟨Step.name, {}⟩ := by
  constructor
  · simp only [whatsapp_webhook, webhookE, hasSession, h, Option.isSome_none,
      start_registration]
    simp [show pyStrip "register" ≠ "" by decide,
      show pyLower (pyStrip "register") ≠ "help" by decide,
      show pyLower (pyStrip "register") ≠ "start" by decide,
      show pyLower (pyStrip "register") ≠ "menu" by decide,
      show pyLower (pyStrip "register") = "register" by decide]
  · simp [setSession]

/-- C3 (confirmed): a commit at the keywords step deletes the session whether
the insert succeeds or fails; on success the confirmation summarises all
fields including the first keyword as the suggested search term, on failure
the generic failure notice is produced; afterwards no session exists and a
fresh `register` starts at step `name` with empty data. -/
theorem C3_commit_deletes_session :
    ∀ db store sender body sess n a p e k0 ks,
      store sender = some sess → sess.step = Step.keywords →
      pyLower body ≠ "cancel" →
      sess.data.name = some n → sess.data.address = some a →
      sess.data.phone = some p → sess.data.email = some e →
      parseKeywords body = k0 :: ks → 2 ≤ (parseKeywords body).length →
      ∃ reply store',
        handle_registration_step db store sender body = .ok (reply, store') ∧
        hasSession store' sender = false ∧
        (db.connFail = false →
          reply = confirmationMsg n a p e (k0 :: ks) k0 db.nextId ∧
          Shows reply n ∧ Shows reply a ∧ Shows reply p ∧ Shows reply e ∧
          Shows reply (commaJoin (k0 :: ks)) ∧
          Shows reply ("• Tell them to search: " ++ k0)) ∧
        (db.connFail = true → reply = regFailMsg) ∧
        whatsapp_webhook db store' "register" sender =
          (regStartMsg, setSession store' sender ⟨Step.name, {}⟩) ∧
        setSession store' sender ⟨Step.name, {}⟩ sender =
          some ⟨Step.name, {}⟩ := by
  intro db store sender body sess n a p e k0 ks hs hstep hc hn ha hp he hk hlen
  have hlen2 : ¬ ((k0 :: ks).length < 2) := by rw [hk] at hlen; omega
  have hstep2 : handle_registration_step db store sender body =
      .ok (complete_registration db (setSession store sender
        ⟨Step.keywords, ⟨some n, some a, some p, some e, some (k0 :: ks)⟩⟩)
        sender) := by
    simp only [handle_registration_step, hs, hstep, if_neg hc, hn, ha, hp, he,
      hk, if_neg hlen2]
  have h2 : setSession store sender
      ⟨Step.keywords, ⟨some n, some a, some p, some e, some (k0 :: ks)⟩⟩
      sender = some ⟨Step.keywords,
        ⟨some n, some a, some p, some e, some (k0 :: ks)⟩⟩ := by
    simp [setSession]
  have hdel : delSession (setSession store sender ⟨Step.keywords,
      ⟨some n, some a, some p, some e, some (k0 :: ks)⟩⟩) sender
      sender = none := by
    simp [delSession]
  cases hcf : db.connFail with
  | false =>
    have hcr : complete_registration db (setSession store sender
        ⟨Step.keywords,
          ⟨some n, some a, some p, some e, some (k0 :: ks)⟩⟩) sender =
        (confirmationMsg n a p e (k0 :: ks) k0 db.nextId,
         delSession (setSession store sender ⟨Step.keywords,
           ⟨some n, some a, some p, some e, some (k0 :: ks)⟩⟩)
           sender) := by
      simp only [complete_registration, h2, DatabaseManager.add_business, hcf]
      rfl
    refine ⟨confirmationMsg n a p e (k0 :: ks) k0 db.nextId, _,
      by rw [hstep2, hcr], by simp [hasSession, hdel], ?_, ?_,
      (register_starts_fresh db _ sender hdel).1,
      (register_starts_fresh db _ sender hdel).2⟩
    · intro _
      refine ⟨rfl, ?_, ?_, ?_, ?_, ?_, ?_⟩ <;> unfold confirmationMsg
      · repeat first
          | exact shows_append_right _ (shows_refl _)
          | apply shows_append_left
      · repeat first
          | exact shows_append_right _ (shows_refl _)
          | apply shows_append_left
      · repeat first
          | exact shows_append_right _ (shows_refl _)
          | apply shows_append_left
      · repeat first
          | exact shows_append_right _ (shows_refl _)
          | apply shows_append_left
      · repeat first
          | exact shows_append_right _ (shows_refl _)
          | apply shows_append_left
      · apply shows_append_left
        apply shows_append_left
        exact shows_glue _ _ _
    · exact fun h => absurd h (by decide)
  | true =>
    have hcr : complete_registration db (setSession store sender
        ⟨Step.keywords,
          ⟨some n, some a, some p, some e, some (k0 :: ks)⟩⟩) sender =
        (regFailMsg,
         delSession (setSession store sender ⟨Step.keywords,
           ⟨some n, some a, some p, some e, some (k0 :: ks)⟩⟩)
           sender) := by
      simp only [complete_registration, h2, DatabaseManager.add_business, hcf]
      rfl
    refine ⟨regFailMsg, _, by rw [hstep2, hcr], by simp [hasSession, hdel],
      fun h => absurd h (by decide), fun _ => rfl,
      (register_starts_fresh db _ sender hdel).1,
      (register_starts_fresh db _ sender hdel).2⟩

/-- Witness for C3 at a concrete commit. -/
theorem C3_commit_deletes_session_witness :
    storeC3W "whatsapp:+1" = some sessC3W ∧
    sessC3W.step = Step.keywords ∧
    parseKeywords "pizza, italian" = "pizza" :: ["italian"] ∧
    (∃ reply store',
      handle_registration_step dbOkW storeC3W "whatsapp:+1" "pizza, italian" =
        .ok (reply, store') ∧
      hasSession store' "whatsapp:+1" = false ∧
      (dbOkW.connFail = false →
        reply = confirmationMsg "Mario's Pizza" "12 Main St, Downtown"
          "+15551234567" "Not provided" ("pizza" :: ["italian"]) "pizza"
          dbOkW.nextId ∧
        Shows reply "Mario's Pizza" ∧ Shows reply "12 Main St, Downtown" ∧
        Shows reply "+15551234567" ∧ Shows reply "Not provided" ∧
        Shows reply (commaJoin ("pizza" :: ["italian"])) ∧
        Shows reply ("• Tell them to search: " ++ "pizza")) ∧
      (dbOkW.connFail = true → reply = regFailMsg) ∧
      whatsapp_webhook dbOkW store' "register" "whatsapp:+1" =
        (regStartMsg, setSession store' "whatsapp:+1" ⟨Step.name, {}⟩) ∧
      setSession store' "whatsapp:+1" ⟨Step.name, {}⟩ "whatsapp:+1" =
        some ⟨Step.name, {}⟩) :=
  ⟨by decide, rfl, by decide,
    C3_commit_deletes_session dbOkW storeC3W "whatsapp:+1" "pizza, italian"
      sessC3W "Mario's Pizza" "12 Main St, Downtown" "+15551234567"
      "Not provided" "pizza" ["italian"] (by decide) rfl (by decide) rfl rfl
      rfl rfl (by decide) (by decide)⟩

/-! ### Claim C1 -/
/-- With a session present the step handler never raises. -/
theorem handler_ok (db : PgDB) (store : SessionStore) (sender body : String)
    (sess : Session) (h : store sender = some sess) :
    ∃ r, handle_registration_step db store sender body = .ok r := by
  unfold handle_registration_step
  rw [h]
  dsimp only
  split
  · exact ⟨_, rfl⟩
  · cases hstep : sess.step <;> dsimp only <;> (repeat' split) <;>
      exact ⟨_, rfl⟩

/-- C1 counterexample: for a whitespace-only body the webhook replies with
the fixed welcome text before ever consulting the session, while the step
handler would re-prompt for the business name. -/
theorem C1_counterexample : ¬ ClaimC1Stated := by
  intro h
  obtain ⟨r, hr, hw⟩ := h dbOkW storeC1W "   " "u" ⟨Step.name, {}⟩ (by decide)
  have h1 : handle_registration_step dbOkW storeC1W "u" (pyStrip "   ") =
      .ok (nameWarn, storeC1W) := rfl
  have h2 : whatsapp_webhook dbOkW storeC1W "   " "u" =
      (welcomeMsg, storeC1W) := rfl
  rw [h1] at hr
  rw [h2] at hw
  injection hr with hr'
  have hmsg : nameWarn = welcomeMsg := congrArg Prod.fst (hr'.trans hw.symm)
  exact absurd hmsg (by decide)

/-- C1 (corrected): with an active session and a nonempty trimmed body the
reply is produced by the step handler regardless of content (cancel handled
inside it); an empty or whitespace-only body instead yields the fixed
welcome text even when a session is active, because the router checks for an
empty body first. -/
theorem C1_amended_session_routing :
    ∀ (db : PgDB) (store : SessionStore) (rawBody sender : String)
      (sess : Session), store sender = some sess →
      (pyStrip rawBody ≠ "" →
        ∃ r, handle_registration_step db store sender (pyStrip rawBody) =
            .ok r ∧ whatsapp_webhook db store rawBody sender = r) ∧
      (pyStrip rawBody = "" →
        whatsapp_webhook db store rawBody sender = (welcomeMsg, store)) := by
  intro db store rawBody sender sess hs
  constructor
  · intro hne
    obtain ⟨r, hr⟩ := handler_ok db store sender (pyStrip rawBody) sess hs
    refine ⟨r, hr, ?_⟩
    simp only [whatsapp_webhook, webhookE, hasSession, hs, Option.isSome_some,
      if_neg hne, if_true, hr]
  · intro he
    simp only [whatsapp_webhook, webhookE, he, if_pos rfl, if_true]

/-- Witness for the amended C1 at a concrete store and whitespace body. -/
theorem C1_amended_session_routing_witness :
    storeC1W "u" = some ⟨Step.name, {}⟩ ∧
    pyStrip "   " = "" ∧
    whatsapp_webhook dbOkW storeC1W "   " "u" = (welcomeMsg, storeC1W) :=
  ⟨by decide, by decide,
    (C1_amended_session_routing dbOkW storeC1W "   " "u" ⟨Step.name, {}⟩
      (by decide)).2 (by decide)⟩

/-! ### Claim C6 -/
/-- An empty trimmed body short-circuits to the welcome text. -/
theorem webhook_empty_body (db : PgDB) (store : SessionStore)
    (rawBody sender : String) (he : pyStrip rawBody = "") :
    whatsapp_webhook db store rawBody sender = (welcomeMsg, store) := by
  simp only [whatsapp_webhook, webhookE, he, if_pos rfl, if_true]

/-- With a session and a nonempty body the webhook returns whatever the
handler returns. -/
theorem webhook_session (db : PgDB) (store : SessionStore)
    (rawBody sender : String) (sess : Session) (hs : store sender = some sess)
    (hne : pyStrip rawBody ≠ "") {r : String × SessionStore}
    (hr : handle_registration_step db store sender (pyStrip rawBody) = .ok r) :
    whatsapp_webhook db store rawBody sender = r := by
  simp only [whatsapp_webhook, webhookE, hasSession, hs, Option.isSome_some,
    if_neg hne, if_true, hr]

/-- `complete_registration` always leaves the sender without a session. -/
theorem complete_registration_deletes (db : PgDB) (store : SessionStore)
    (sender : String) :
    (complete_registration db store sender).2 sender = none := by
  unfold complete_registration
  cases h : store sender with
  | none => exact h
  | some sess =>
    dsimp only
    repeat' split
    all_goals simp [delSession]

/-- Every handler outcome leaves the store unchanged, deletes the sender's
session, or advances the sender's session to a strictly later step. -/
theorem handler_store_cases (db : PgDB) (store : SessionStore)
    (sender body : String) (sess : Session) (h : store sender = some sess) :
    ∃ r, handle_registration_step db store sender body = .ok r ∧
      (r.2 = store ∨ r.2 sender = none ∨
        ∃ st2, r.2 = setSession store sender st2 ∧
          stepIdx sess.step < stepIdx st2.step) := by
  unfold handle_registration_step
  rw [h]
  dsimp only
  split
  · exact ⟨_, rfl, .inr (.inl (by simp [delSession]))⟩
  · cases hstep : sess.step <;> dsimp only
    · split
      · exact ⟨_, rfl, .inl rfl⟩
      · exact ⟨_, rfl, .inr (.inr ⟨_, rfl, by simp [stepIdx]⟩)⟩
    · split
      · exact ⟨_, rfl, .inl rfl⟩
      · exact ⟨_, rfl, .inr (.inr ⟨_, rfl, by simp [stepIdx]⟩)⟩
    · split
      · exact ⟨_, rfl, .inr (.inr ⟨_, rfl, by simp [stepIdx]⟩)⟩
      · exact ⟨_, rfl, .inl rfl⟩
    · split
      · exact ⟨_, rfl, .inr (.inr ⟨_, rfl, by simp [stepIdx]⟩)⟩
      · split
        · exact ⟨_, rfl, .inr (.inr ⟨_, rfl, by simp [stepIdx]⟩)⟩
        · exact ⟨_, rfl, .inl rfl⟩
    · split
      · exact ⟨_, rfl, .inl rfl⟩
      · exact ⟨_, rfl, .inr (.inl (complete_registration_deletes db _ sender))⟩

/-- A rejected input produces a warning and returns the store untouched. -/
theorem handler_rejects (db : PgDB) (store : SessionStore)
    (sender body : String) (sess : Session) (h : store sender = some sess)
    (hc : pyLower body ≠ "cancel")
    (hrej : rejectedInput sess.step body = true) :
    ∃ w, handle_registration_step db store sender body = .ok (w, store) := by
  unfold handle_registration_step
  rw [h]
  dsimp only
  rw [if_neg hc]
  cases hstep : sess.step <;> rw [hstep] at hrej <;>
      simp only [rejectedInput, decide_eq_true_eq, Bool.and_eq_true,
        Bool.not_eq_true', decide_eq_false_iff_not] at hrej <;>
    dsimp only
  · exact ⟨_, by rw [if_pos hrej]⟩
  · exact ⟨_, by rw [if_pos hrej]⟩
  · exact ⟨_, by
      rw [if_neg (by simp [hrej] : ¬ validate_phone body = true)]⟩
  · obtain ⟨hskip, hmail⟩ := hrej
    exact ⟨_, by
      rw [if_neg hskip,
        if_neg (by simp [hmail] : ¬ validate_email body = true)]⟩
  · exact ⟨_, by rw [if_pos hrej]⟩

/-- C6 (confirmed): across a webhook call a sender's session step never moves
backward through the order name, address, phone, email, keywords; and on a
validation rejection (session active, nonempty body, not cancel) the whole
session store — step and accumulated data — is returned unchanged, so the
rejected raw input is stored nowhere. -/
theorem C6_steps_forward_only :
    ∀ (db : PgDB) (store : SessionStore) (rawBody sender : String),
      (∀ s s', store sender = some s →
        (whatsapp_webhook db store rawBody sender).2 sender = some s' →
        stepIdx s.step ≤ stepIdx s'.step) ∧
      (∀ s, store sender = some s → pyStrip rawBody ≠ "" →
        pyLower (pyStrip rawBody) ≠ "cancel" →
        rejectedInput s.step (pyStrip rawBody) = true →
        (whatsapp_webhook db store rawBody sender).2 = store) := by
  intro db store rawBody sender
  constructor
  · intro s s' hs hw
    by_cases hemp : pyStrip rawBody = ""
    · rw [webhook_empty_body db store rawBody sender hemp] at hw
      have : s = s' := Option.some.inj (hs.symm.trans hw)
      rw [this]
    · obtain ⟨r, hr, hcase⟩ :=
        handler_store_cases db store sender (pyStrip rawBody) s hs
      rw [webhook_session db store rawBody sender s hs hemp hr] at hw
      rcases hcase with hsame | hnone | ⟨st2, heq, hlt⟩
      · rw [hsame] at hw
        have : s = s' := Option.some.inj (hs.symm.trans hw)
        rw [this]
      · rw [hnone] at hw
        cases hw
      · rw [heq] at hw
        simp only [setSession, if_pos rfl] at hw
        have : st2 = s' := Option.some.inj hw
        rw [← this]
        exact Nat.le_of_lt hlt
  · intro s hs hne hc hrej
    obtain ⟨w, hw⟩ :=
      handler_rejects db store sender (pyStrip rawBody) s hs hc hrej
    rw [webhook_session db store rawBody sender s hs hne hw]

/-- Witness for C6: a too-short address is rejected and the store is
returned unchanged. -/
theorem C6_steps_forward_only_witness :
    storeC6W "u" = some ⟨Step.address, ⟨some "Cafe", none, none, none, none⟩⟩ ∧
    rejectedInput Step.address (pyStrip "short") = true ∧
    (whatsapp_webhook dbOkW storeC6W "short" "u").2 = storeC6W :=
  ⟨by decide, by decide,
    (C6_steps_forward_only dbOkW storeC6W "short" "u").2
      ⟨Step.address, ⟨some "Cafe", none, none, none, none⟩⟩ (by decide)
      (by decide) (by decide) (by decide)⟩

/-! ### Claim C8 -/
/-- Splitting a local part without `@` from the rest finds that split. -/
theorem splitAtAmp_append (l r : List Char) (hl : '@' ∉ l) :
    splitAtAmp (l ++ '@' :: r) = some (l, r) := by
  induction l with
  | nil => simp [splitAtAmp]
  | cons c tail ih =>
    have hc : c ≠ '@' := fun h => hl (by rw [h]; exact List.mem_cons_self _ _)
    have hl' : '@' ∉ tail := fun h => hl (List.mem_cons_of_mem c h)
    simp [splitAtAmp, hc, ih hl']

/-- What a successful split says about the input. -/
theorem splitAtAmp_sound : ∀ cs l r, splitAtAmp cs = some (l, r) →
    cs = l ++ '@' :: r ∧ '@' ∉ l := by
  intro cs
  induction cs with
  | nil => intro l r h; simp [splitAtAmp] at h
  | cons c tail ih =>
    intro l r h
    by_cases hc : c = '@'
    · subst hc
      simp only [splitAtAmp, if_pos rfl] at h
      injection h with h'
      rw [Prod.mk.injEq] at h'
      obtain ⟨hl, hr⟩ := h'
      exact ⟨by rw [← hl, ← hr]; rfl, by rw [← hl]; exact List.not_mem_nil _⟩
    · simp only [splitAtAmp, if_neg hc] at h
      cases hsp : splitAtAmp tail with
      | none => rw [hsp] at h; cases h
      | some pr =>
        obtain ⟨l', r'⟩ := pr
        rw [hsp] at h
        simp only [Option.some.injEq, Prod.mk.injEq] at h
        obtain ⟨hl, hr⟩ := h
        obtain ⟨hcs, hnot⟩ := ih l' r' hsp
        subst hl
        subst hr
        refine ⟨by simp [hcs], ?_⟩
        intro hmem
        rcases List.mem_cons.mp hmem with heq | hmem'
        · exact hc heq.symm
        · exact hnot hmem'

/-- The regex tail after `@` matches iff the rest splits into a nonempty
domain of domain characters, a dot and an alphabetic label of length two or
more. -/
theorem matchesAfterAmp_iff (rest : List Char) :
    matchesAfterAmp rest = true ↔
      ∃ dom tld, rest = dom ++ '.' :: tld ∧ dom ≠ [] ∧
        (∀ c ∈ dom, isDomainChar c = true) ∧ 2 ≤ tld.length ∧
        (∀ c ∈ tld, c.isAlpha = true) := by
  unfold matchesAfterAmp
  rw [List.any_eq_true]
  constructor
  · rintro ⟨i, hmem, hok⟩
    rw [List.mem_range] at hmem
    unfold domSplitOk at hok
    split at hok
    case _ t heq =>
      simp only [Bool.and_eq_true, decide_eq_true_eq, List.all_eq_true,
        tldOk] at hok
      obtain ⟨⟨h1i, hdomall⟩, h2t, htall⟩ := hok
      refine ⟨rest.take i, t, ?_, ?_, hdomall, h2t, htall⟩
      · conv_lhs => rw [← List.take_append_drop i rest]
        rw [heq]
      · have hlen : (rest.take i).length = i := by
          rw [List.length_take]
          omega
        intro h0
        rw [h0] at hlen
        simp at hlen
        omega
    case _ => cases hok
  · rintro ⟨dom, tld, rfl, hdne, hdall, htl, hta⟩
    refine ⟨dom.length, ?_, ?_⟩
    · rw [List.mem_range]
      simp only [List.length_append, List.length_cons]
      omega
    · unfold domSplitOk
      simp only [List.drop_left, List.take_left]
      simp only [Bool.and_eq_true, decide_eq_true_eq, List.all_eq_true, tldOk]
      have : 0 < dom.length := List.length_pos.mpr hdne
      exact ⟨⟨by omega, hdall⟩, htl, hta⟩

/-- The executable regex matcher recognises exactly `EmailRegexMatch`. -/
theorem emailCoreMatch_iff (cs : List Char) :
    emailCoreMatch cs = true ↔ EmailRegexMatch cs := by
  unfold emailCoreMatch
  cases hsp : splitAtAmp cs with
  | none =>
    constructor
    · intro h; cases h
    · rintro ⟨lp, dom, tld, heq, hlp, hlocal, hdne, hdall, htl, hta⟩
      have hat : '@' ∉ lp := fun hmem =>
        absurd (hlocal '@' hmem) (by decide)
      have hsp2 : splitAtAmp cs = some (lp, dom ++ '.' :: tld) := by
        rw [heq]
        exact splitAtAmp_append lp _ hat
      rw [hsp] at hsp2
      cases hsp2
  | some pr =>
    obtain ⟨l, r⟩ := pr
    dsimp only
    constructor
    · intro h
      simp only [Bool.and_eq_true, decide_eq_true_eq, List.all_eq_true] at h
      obtain ⟨⟨hne, hlocal⟩, hafter⟩ := h
      obtain ⟨dom, tld, hr, hdne, hdall, htl, hta⟩ :=
        (matchesAfterAmp_iff r).mp hafter
      obtain ⟨hcs, -⟩ := splitAtAmp_sound cs l r hsp
      exact ⟨l, dom, tld, by rw [hcs, hr], hne, hlocal, hdne, hdall, htl, hta⟩
    · rintro ⟨lp, dom, tld, heq, hlp, hlocal, hdne, hdall, htl, hta⟩
      have hat : '@' ∉ lp := fun hmem =>
        absurd (hlocal '@' hmem) (by decide)
      have hsp2 : splitAtAmp cs = some (lp, dom ++ '.' :: tld) := by
        rw [heq]
        exact splitAtAmp_append lp _ hat
      rw [hsp] at hsp2
      simp only [Option.some.injEq, Prod.mk.injEq] at hsp2
      obtain ⟨hl, hr⟩ := hsp2
      subst hl
      subst hr
      simp only [Bool.and_eq_true, decide_eq_true_eq, List.all_eq_true]
      exact ⟨⟨hlp, hlocal⟩, (matchesAfterAmp_iff _).mpr
        ⟨dom, tld, rfl, hdne, hdall, htl, hta⟩⟩

/-- C8 counterexample: a leading space. The trimmed string " a@b.co".strip()
matches the pattern, but `re.match` runs on the untrimmed string and
rejects it. -/
theorem C8_counterexample : ¬ ClaimC8Stated := by
  intro h
  have h2 := (h.2 " a@b.co").mpr
    ⟨['a'], ['b'], ['c', 'o'], by decide, by decide, by decide, by decide,
      by decide, by decide, by decide⟩
  exact absurd h2 (by decide)

/-- C8 (corrected): at the email step, exact case-insensitive `skip` stores
the sentinel and advances bypassing validation, and any other input advances
(storing the trimmed input) iff `validate_email` accepts it; but
`validate_email` accepts a string iff the whole UNtrimmed string — with at
most one trailing newline ignored, as Python's `$` anchor does — matches
local-part@domain.tld with the stated character classes. In the webhook flow
the body is already trimmed before validation, so there the two readings
coincide. -/
theorem C8_amended_email_step :
    EmailStepBehaviour ∧
    ∀ s : String, validate_email s = true ↔
      EmailRegexMatch (stripDollarNewline s.data) := by
  constructor
  · intro db store sender body sess hs hstep hc
    refine ⟨?_, ?_, ?_⟩
    · intro hskip
      simp only [handle_registration_step, hs, hstep, if_neg hc,
        if_pos hskip]
    · intro hns hv
      simp only [handle_registration_step, hs, hstep, if_neg hc,
        if_neg hns, if_pos hv]
    · intro hns hv
      simp only [handle_registration_step, hs, hstep, if_neg hc,
        if_neg hns, if_neg (by simp [hv] : ¬ validate_email body = true)]
  · intro s
    unfold validate_email
    exact emailCoreMatch_iff (stripDollarNewline s.data)

/-- Witness for the amended C8: a valid email advances to the keywords step
storing the trimmed input, and the matcher accepts it. -/
theorem C8_amended_email_step_witness :
    storeC8W "u" = some ⟨Step.email, ⟨some "Cafe", some "1 Long Road, Town",
      some "+1234567890", none, none⟩⟩ ∧
    validate_email "info@mybusiness.com" = true ∧
    handle_registration_step dbOkW storeC8W "u" "info@mybusiness.com" =
      .ok (emailOkMsg, setSession storeC8W "u" ⟨Step.keywords,
        ⟨some "Cafe", some "1 Long Road, Town", some "+1234567890",
          some (pyStrip "info@mybusiness.com"), none⟩⟩) :=
  ⟨by decide, by decide,
    (C8_amended_email_step.1 dbOkW storeC8W "u" "info@mybusiness.com"
      ⟨Step.email, ⟨some "Cafe", some "1 Long Road, Town",
        some "+1234567890", none, none⟩⟩ (by decide) rfl (by decide)).2.1
      (by decide) (by decide)⟩

/-! ### Claim C5 -/
/-- The webhook try-block never lets an exception escape: every call returns
an `ok` reply, and the wrapped webhook returns exactly that reply. -/
theorem webhookE_always_ok (db : PgDB) (store : SessionStore)
    (rawBody sender : String) :
    ∃ r, webhookE db store rawBody sender = .ok r ∧
      whatsapp_webhook db store rawBody sender = r := by
  have main : ∃ r, webhookE db store rawBody sender = .ok r := by
    unfold webhookE
    dsimp only
    split
    · exact ⟨_, rfl⟩
    · split
      next hses =>
        simp only [hasSession] at hses
        obtain ⟨sess, hs⟩ := Option.isSome_iff_exists.mp hses
        exact handler_ok db store sender _ sess hs
      next hses => (repeat' split) <;> exact ⟨_, rfl⟩
  obtain ⟨r, hr⟩ := main
  exact ⟨r, hr, by unfold whatsapp_webhook; rw [hr]⟩

/-- C5 counterexample: with a failing backend a keyword search replies with
the ordinary no-result message — the store layer already swallowed the error
and returned an empty list — not with the presenter's apology. -/
theorem C5_counterexample : ¬ ClaimC5Stated := by
  intro h
  have h2 := h.2.1 dbFailW "pizza" rfl
  have h3 : search_businesses dbFailW "pizza" = noResultsMsg "pizza" := rfl
  rw [h3] at h2
  exact absurd h2 (by decide)

/-- C5 (corrected): the webhook body always returns a well-formed `ok` reply
(no exception reaches the transport); a StoreFailure during the commit is
surfaced as the generic registration-failure notice; but a StoreFailure
during a search presenter call is absorbed inside the store layer, which
returns an empty default, so the user sees the normal no-result message for
that query rather than an apology. -/
theorem C5_amended_error_handling :
    (∀ (db : PgDB) (store : SessionStore) (rawBody sender : String),
      ∃ r, webhookE db store rawBody sender = .ok r ∧
        whatsapp_webhook db store rawBody sender = r) ∧
    (∀ (db : PgDB) (store : SessionStore) (sender : String),
      db.connFail = true →
      (complete_registration db store sender).1 = regFailMsg) ∧
    (∀ (db : PgDB) (q : String), db.connFail = true →
      search_businesses db q = noResultsMsg q) ∧
    (∀ (db : PgDB) (loc : String), db.connFail = true →
      search_by_location db loc = noLocResultsMsg loc) := by
  refine ⟨webhookE_always_ok, ?_, ?_, ?_⟩
  · intro db store sender hcf
    unfold complete_registration
    repeat' split
    all_goals first
      | rfl
      | simp_all [DatabaseManager.add_business, hcf]
  · intro db q hcf
    simp [search_businesses, DatabaseManager.search_businesses, hcf]
  · intro db loc hcf
    simp [search_by_location, DatabaseManager.search_by_location, hcf]

/-- Witness for the amended C5 on a concrete failing backend. -/
theorem C5_amended_error_handling_witness :
    dbFailW.connFail = true ∧
    search_businesses dbFailW "pizza" = noResultsMsg "pizza" ∧
    (complete_registration dbFailW storeC3W "whatsapp:+1").1 = regFailMsg :=
  ⟨rfl, C5_amended_error_handling.2.2.1 dbFailW "pizza" rfl,
    C5_amended_error_handling.2.1 dbFailW storeC3W "whatsapp:+1" rfl⟩

/-! ### Claim C2 -/
theorem string_append_empty (s : String) : s ++ "" = s := by
  cases s with
  | mk d => exact congrArg String.mk (List.append_nil d)

theorem blockKW_shows_name (i : Nat) (b : Row) : Shows (blockKW i b) b.name :=
  shows_append_left _ (shows_append_left _ (shows_append_left _
    (shows_append_left _ (shows_append_left _
      (shows_append_right _ (shows_refl _))))))

theorem blockKW_shows_address (i : Nat) (b : Row) :
    Shows (blockKW i b) b.address :=
  shows_append_left _ (shows_append_left _ (shows_append_left _
    (shows_append_right _ (shows_append_left _
      (shows_append_right _ (shows_refl _))))))

theorem blockKW_shows_phone (i : Nat) (b : Row) :
    Shows (blockKW i b) b.phone :=
  shows_append_left _ (shows_append_left _ (shows_append_right _
    (shows_append_left _ (shows_append_right _ (shows_refl _)))))

theorem blockKW_shows_email (i : Nat) (b : Row)
    (he : b.email ≠ "Not provided") :
    Shows (blockKW i b) ("📧 " ++ b.email) := by
  unfold blockKW
  rw [if_pos he]
  exact shows_append_left _ (shows_append_right _
    (shows_append_left _ (shows_refl _)))

theorem blockLoc_shows_name (i : Nat) (b : Row) : Shows (blockLoc i b) b.name :=
  shows_append_left _ (shows_append_left _ (shows_append_left _
    (shows_append_left _ (shows_append_left _
      (shows_append_right _ (shows_refl _))))))

theorem blockLoc_shows_address (i : Nat) (b : Row) :
    Shows (blockLoc i b) b.address :=
  shows_append_left _ (shows_append_left _ (shows_append_left _
    (shows_append_right _ (shows_append_left _
      (shows_append_right _ (shows_refl _))))))

theorem blockLoc_shows_phone (i : Nat) (b : Row) :
    Shows (blockLoc i b) b.phone :=
  shows_append_left _ (shows_append_left _ (shows_append_right _
    (shows_append_left _ (shows_append_right _ (shows_refl _)))))

theorem blockLoc_shows_keywords (i : Nat) (b : Row) (hk : b.keywords ≠ []) :
    Shows (blockLoc i b) ("🏷️ " ++ commaJoin (b.keywords.take 3)) := by
  unfold blockLoc
  rw [if_pos hk]
  exact shows_append_left _ (shows_append_right _
    (shows_append_left _ (shows_refl _)))

theorem shows_in_blocksKW {piece : String} :
    ∀ (l : List Row) (i : Nat) (b : Row), b ∈ l →
      (∀ j, Shows (blockKW j b) piece) →
      Shows (renderBlocksKW i l) piece := by
  intro l
  induction l with
  | nil => intro i b hb; cases hb
  | cons x xs ih =>
    intro i b hb hp
    rcases List.mem_cons.mp hb with heq | hmem
    · subst heq
      exact shows_append_left _ (hp i)
    · exact shows_append_right _ (ih (i + 1) b hmem hp)

theorem shows_in_blocksLoc {piece : String} :
    ∀ (l : List Row) (i : Nat) (b : Row), b ∈ l →
      (∀ j, Shows (blockLoc j b) piece) →
      Shows (renderBlocksLoc i l) piece := by
  intro l
  induction l with
  | nil => intro i b hb; cases hb
  | cons x xs ih =>
    intro i b hb hp
    rcases List.mem_cons.mp hb with heq | hmem
    · subst heq
      exact shows_append_left _ (hp i)
    · exact shows_append_right _ (ih (i + 1) b hmem hp)

theorem shows_in_kwReply {q : String} {rs : List Row} {piece : String}
    (h : Shows (renderBlocksKW 1 (rs.take 5)) piece) :
    Shows (renderSearchReply q rs) piece :=
  shows_append_left _ (shows_append_left _ (shows_append_right _ h))

theorem shows_in_locReply {loc : String} {rs : List Row} {piece : String}
    (h : Shows (renderBlocksLoc 1 (rs.take 5)) piece) :
    Shows (renderLocationReply loc rs) piece :=
  shows_append_left _ (shows_append_left _ (shows_append_right _ h))

set_option maxRecDepth 40000 in
/-- C2 counterexample: the keyword-search reply for a record with keywords
["pizza", "sushi"] does not contain "pizza, sushi" anywhere — keywords are
rendered by the LOCATION search, not the keyword search. -/
theorem C2_counterexample : ¬ ClaimC2Stated := by
  intro h
  have h7 := h.2.2.2.2.2.2.1 "x" [rowC2W] rowC2W (by decide) (by decide)
  rw [shows_iff_containsL] at h7
  exact absurd h7 (by decide)

/-- C2 (corrected): both search replies render at most the first five
fetched records (records beyond the fifth only affect the fetched count in
the header and note), append the literal "... and N more results" note with
N = fetched − 5 when more than five were fetched, and show name, address and
phone of each rendered record; up to 3 keywords are shown for the LOCATION
search only (the keyword-search record block does not depend on keywords at
all), and email is shown in the KEYWORD search only when it differs from the
sentinel (the block of a sentinel-email record carries no email segment, and
the location block does not depend on email). -/
theorem C2_amended_rendering :
    (∀ (q : String) (rs rs' : List Row), rs.take 5 = rs'.take 5 →
      rs.length = rs'.length →
      renderSearchReply q rs = renderSearchReply q rs') ∧
    (∀ (loc : String) (rs rs' : List Row), rs.take 5 = rs'.take 5 →
      rs.length = rs'.length →
      renderLocationReply loc rs = renderLocationReply loc rs') ∧
    (∀ (q : String) (rs : List Row), 5 < rs.length →
      Shows (renderSearchReply q rs)
        ("... and " ++ toString (rs.length - 5) ++ " more results")) ∧
    (∀ (loc : String) (rs : List Row), 5 < rs.length →
      Shows (renderLocationReply loc rs)
        ("... and " ++ toString (rs.length - 5) ++ " more results")) ∧
    (∀ (q : String) (rs : List Row) (b : Row), b ∈ rs.take 5 →
      Shows (renderSearchReply q rs) b.name ∧
      Shows (renderSearchReply q rs) b.address ∧
      Shows (renderSearchReply q rs) b.phone) ∧
    (∀ (loc : String) (rs : List Row) (b : Row), b ∈ rs.take 5 →
      Shows (renderLocationReply loc rs) b.name ∧
      Shows (renderLocationReply loc rs) b.address ∧
      Shows (renderLocationReply loc rs) b.phone) ∧
    (∀ (loc : String) (rs : List Row) (b : Row), b ∈ rs.take 5 →
      b.keywords ≠ [] →
      Shows (renderLocationReply loc rs)
        ("🏷️ " ++ commaJoin (b.keywords.take 3))) ∧
    (∀ (q : String) (rs : List Row) (b : Row), b ∈ rs.take 5 →
      b.email ≠ "Not provided" →
      Shows (renderSearchReply q rs) ("📧 " ++ b.email)) ∧
    (∀ (i : Nat) (b b' : Row), b.name = b'.name → b.address = b'.address →
      b.phone = b'.phone → b.email = b'.email →
      blockKW i b = blockKW i b') ∧
    (∀ (i : Nat) (b b' : Row), b.name = b'.name → b.address = b'.address →
      b.phone = b'.phone → b.keywords = b'.keywords →
      blockLoc i b = blockLoc i b') ∧
    (∀ (i : Nat) (b : Row), b.email = "Not provided" →
      blockKW i b = blockKWPlain i b) ∧
    (∀ (i : Nat) (b : Row), b.keywords = [] →
      blockLoc i b = blockLocPlain i b) := by
  refine ⟨?_, ?_, ?_, ?_, ?_, ?_, ?_, ?_, ?_, ?_, ?_, ?_⟩
  · intro q rs rs' htake hlen
    unfold renderSearchReply
    rw [htake, hlen]
  · intro loc rs rs' htake hlen
    unfold renderLocationReply
    rw [htake, hlen]
  · intro q rs h5
    unfold renderSearchReply
    rw [if_pos h5]
    exact shows_append_left _ (shows_append_right _
      (shows_append_left _ (shows_refl _)))
  · intro loc rs h5
    unfold renderLocationReply
    rw [if_pos h5]
    exact shows_append_left _ (shows_append_right _
      (shows_append_left _ (shows_refl _)))
  · intro q rs b hb
    exact ⟨shows_in_kwReply (shows_in_blocksKW _ 1 b hb
        fun j => blockKW_shows_name j b),
      shows_in_kwReply (shows_in_blocksKW _ 1 b hb
        fun j => blockKW_shows_address j b),
      shows_in_kwReply (shows_in_blocksKW _ 1 b hb
        fun j => blockKW_shows_phone j b)⟩
  · intro loc rs b hb
    exact ⟨shows_in_locReply (shows_in_blocksLoc _ 1 b hb
        fun j => blockLoc_shows_name j b),
      shows_in_locReply (shows_in_blocksLoc _ 1 b hb
        fun j => blockLoc_shows_address j b),
      shows_in_locReply (shows_in_blocksLoc _ 1 b hb
        fun j => blockLoc_shows_phone j b)⟩
  · intro loc rs b hb hk
    exact shows_in_locReply (shows_in_blocksLoc _ 1 b hb
      fun j => blockLoc_shows_keywords j b hk)
  · intro q rs b hb he
    exact shows_in_kwReply (shows_in_blocksKW _ 1 b hb
      fun j => blockKW_shows_email j b he)
  · intro i b b' h1 h2 h3 h4
    unfold blockKW
    rw [h1, h2, h3, h4]
  · intro i b b' h1 h2 h3 h4
    unfold blockLoc
    rw [h1, h2, h3, h4]
  · intro i b he
    unfold blockKW blockKWPlain
    rw [if_neg (by simp [he])]
    rw [string_append_empty]
  · intro i b hk
    unfold blockLoc blockLocPlain
    rw [if_neg (by simp [hk])]
    rw [string_append_empty]

/-- Witness for the amended C2: a sentinel-email record renders with no
email segment in the keyword search, and the location reply shows its
first keywords. -/
theorem C2_amended_rendering_witness :
    rowC2W.email = "Not provided" ∧
    blockKW 1 rowC2W = blockKWPlain 1 rowC2W ∧
    rowC2W ∈ ([rowC2W] : List Row).take 5 ∧
    Shows (renderLocationReply "town" [rowC2W])
      ("🏷️ " ++ commaJoin (rowC2W.keywords.take 3)) :=
  ⟨rfl, C2_amended_rendering.2.2.2.2.2.2.2.2.2.2.1 1 rowC2W rfl,
    by decide,
    C2_amended_rendering.2.2.2.2.2.2.1 "town" [rowC2W] rowC2W (by decide)
      (by decide)⟩

/-! ### Claim C4 -/
theorem likeMatch_cons (p : Char) (ps s : List Char) :
    likeMatch (p :: ps) s =
      if p = '%' then likeStar (likeMatch ps) s
      else if p = '\\' then
        (match ps, s with
         | q :: ps', c :: cs => decide (c = q) && likeMatch ps' cs
         | _, _ => false)
      else if p = '_' then
        (match s with
         | [] => false
         | _ :: cs => likeMatch ps cs)
      else
        (match s with
         | [] => false
         | c :: cs => decide (c = p) && likeMatch ps cs) := by
  rw [likeMatch.eq_def]

theorem likeMatch_nil (s : List Char) : likeMatch [] s = s.isEmpty := by
  rw [likeMatch.eq_def]

theorem likeStar_iff (f : List Char → Bool) :
    ∀ s : List Char, likeStar f s = true ↔ ∃ n, f (s.drop n) = true := by
  intro s
  induction s with
  | nil =>
    simp only [likeStar, List.drop_nil]
    exact ⟨fun h => ⟨0, h⟩, fun ⟨n, h⟩ => h⟩
  | cons c cs ih =>
    simp only [likeStar, Bool.or_eq_true, ih]
    constructor
    · rintro (h | ⟨n, h⟩)
      · exact ⟨0, h⟩
      · exact ⟨n + 1, h⟩
    · rintro ⟨n, h⟩
      cases n with
      | zero => exact .inl h
      | succ m => exact .inr ⟨m, h⟩

/-- A wildcard-free pattern followed by `%` matches exactly the strings it
prefixes. -/
theorem likeMatch_lit_iff (qcs : List Char)
    (hq : ∀ c ∈ qcs, c ≠ '%' ∧ c ≠ '_' ∧ c ≠ '\\') :
    ∀ s : List Char, likeMatch (qcs ++ ['%']) s = true ↔
      ∃ r, s = qcs ++ r := by
  induction qcs with
  | nil =>
    intro s
    rw [List.nil_append, likeMatch_cons, if_pos rfl, likeStar_iff]
    constructor
    · rintro ⟨n, -⟩
      exact ⟨s, rfl⟩
    · rintro ⟨r, hr⟩
      exact ⟨s.length, by rw [List.drop_length, likeMatch_nil]; rfl⟩
  | cons c qcs' ih =>
    intro s
    obtain ⟨hc1, hc2, hc3⟩ := hq c (List.mem_cons_self _ _)
    have hq' : ∀ x ∈ qcs', x ≠ '%' ∧ x ≠ '_' ∧ x ≠ '\\' :=
      fun x hx => hq x (List.mem_cons_of_mem _ hx)
    cases s with
    | nil =>
      rw [List.cons_append, likeMatch_cons, if_neg hc1, if_neg hc3, if_neg hc2]
      simp
    | cons d ds =>
      rw [List.cons_append, likeMatch_cons, if_neg hc1, if_neg hc3, if_neg hc2]
      rw [show (match d :: ds with
          | [] => false
          | c_1 :: cs => decide (c_1 = c) && likeMatch (qcs' ++ ['%']) cs) =
          (decide (d = c) && likeMatch (qcs' ++ ['%']) ds) from rfl]
      rw [Bool.and_eq_true, decide_eq_true_eq, ih hq' ds]
      constructor
      · rintro ⟨rfl, r, rfl⟩
        exact ⟨r, rfl⟩
      · rintro ⟨r, hr⟩
        rw [List.cons_append] at hr
        injection hr with h1 h2
        exact ⟨h1, r, h2⟩

/-- For a query without LIKE metacharacters, `LIKE '%query%'` is exactly
substring containment. -/
theorem likeMatch_contains (qcs : List Char)
    (hq : ∀ c ∈ qcs, c ≠ '%' ∧ c ≠ '_' ∧ c ≠ '\\') (s : List Char) :
    likeMatch ('%' :: qcs ++ ['%']) s = true ↔ containsL s qcs = true := by
  rw [List.cons_append, likeMatch_cons, if_pos rfl, likeStar_iff,
    containsL_iff]
  constructor
  · rintro ⟨n, h⟩
    obtain ⟨r, hr⟩ := (likeMatch_lit_iff qcs hq _).mp h
    refine ⟨s.take n, r, ?_⟩
    conv_lhs => rw [← List.take_append_drop n s, hr]
    rw [List.append_assoc]
  · rintro ⟨l, r, rfl⟩
    refine ⟨l.length, (likeMatch_lit_iff qcs hq _).mpr ⟨r, ?_⟩⟩
    rw [List.append_assoc, List.drop_left]

theorem rankLe_iff (q : String) (a b : Row) :
    rankLe q a b = true ↔
      (relevance_score q b < relevance_score q a ∨
        (relevance_score q a = relevance_score q b ∧
          b.registered_at ≤ a.registered_at)) := by
  simp [rankLe, Bool.or_eq_true, Bool.and_eq_true, decide_eq_true_eq]

theorem rankRel_total (q : String) :
    ∀ a b : Row, rankRel q a b ∨ rankRel q b a := by
  intro a b
  unfold rankRel
  rw [rankLe_iff, rankLe_iff]
  omega

theorem rankRel_trans (q : String) :
    ∀ a b c : Row, rankRel q a b → rankRel q b c → rankRel q a c := by
  intro a b c hab hbc
  unfold rankRel at hab hbc ⊢
  rw [rankLe_iff] at hab hbc ⊢
  omega

/-- A returned row sits in the table and satisfies the WHERE clause. -/
theorem mem_search {db : PgDB} {q : String} {limit : Nat} {r : Row}
    (h : r ∈ DatabaseManager.search_businesses db q limit) :
    r ∈ db.table ∧ searchWhere db q r = true := by
  unfold DatabaseManager.search_businesses at h
  split at h
  · exact absurd h (List.not_mem_nil r)
  · have h1 := List.mem_of_mem_take h
    rw [(List.perm_insertionSort _ _).mem_iff] at h1
    exact List.mem_filter.mp h1

/-- The returned rows are sorted by the ORDER BY keys. -/
theorem search_sorted (db : PgDB) (q : String) (limit : Nat) :
    List.Pairwise (rankRel q)
      (DatabaseManager.search_businesses db q limit) := by
  unfold DatabaseManager.search_businesses
  split
  · exact List.Pairwise.nil
  · haveI : IsTotal Row (rankRel q) := ⟨rankRel_total q⟩
    haveI : IsTrans Row (rankRel q) := ⟨rankRel_trans q⟩
    exact List.Pairwise.sublist (List.take_sublist _ _)
      (List.sorted_insertionSort _ _)

/-- The LIMIT clause caps the result. -/
theorem search_length (db : PgDB) (q : String) (limit : Nat) :
    (DatabaseManager.search_businesses db q limit).length ≤ limit := by
  unfold DatabaseManager.search_businesses
  split
  · simp
  · rw [List.length_take]
    exact min_le_left _ _

/-- C4 counterexample: the query "_" is a LIKE wildcard, so the SQL returns
a row whose nameLower does not contain "_", matching none of the claim's
three criteria. -/
theorem C4_counterexample : ¬ ClaimC4Stated := by
  intro h
  have hm := (h dbC4W "_" 10).1 rowC4W (by decide)
  rcases hm.2 with hkw | hcon | hfts
  · exact absurd hkw (by decide)
  · exact absurd hcon (by decide)
  · exact absurd hfts (by decide)

/-- C4 (corrected): the search returns only active records satisfying the
WHERE clause — exact keyword match, nameLower matching the SQL LIKE pattern
`'%query%'` (which is substring containment exactly when the query contains
no LIKE metacharacter `%`, `_` or `\`), or a full-text match — ordered by
relevance tier (keyword match scores 3, then LIKE match 2, then records
reached only through full-text 1) with ties broken by most recent
registeredAt first, and the result capped at the limit. -/
theorem C4_amended_search_ranking :
    (∀ (db : PgDB) (q : String) (limit : Nat),
      (DatabaseManager.search_businesses db q limit).length ≤ limit ∧
      (∀ r ∈ DatabaseManager.search_businesses db q limit,
        r.status = "active" ∧
        (kwArrayMatch q r = true ∨ nameLikeMatch q r = true ∨
          db.fts r q = true) ∧
        (kwArrayMatch q r = true → relevance_score q r = 3) ∧
        (kwArrayMatch q r = false → nameLikeMatch q r = true →
          relevance_score q r = 2) ∧
        (kwArrayMatch q r = false → nameLikeMatch q r = false →
          relevance_score q r = 1 ∧ db.fts r q = true)) ∧
      List.Pairwise (fun a b =>
        relevance_score q b < relevance_score q a ∨
          (relevance_score q a = relevance_score q b ∧
            b.registered_at ≤ a.registered_at))
        (DatabaseManager.search_businesses db q limit)) ∧
    (∀ (q : String) (r : Row),
      (∀ c ∈ (pyLower q).data, c ≠ '%' ∧ c ≠ '_' ∧ c ≠ '\\') →
      (nameLikeMatch q r = true ↔
        containsL r.name_lower.data (pyLower q).data = true)) := by
  constructor
  · intro db q limit
    refine ⟨search_length db q limit, ?_, ?_⟩
    · intro r hr
      obtain ⟨-, hw⟩ := mem_search hr
      unfold searchWhere at hw
      rw [Bool.and_eq_true, Bool.or_eq_true, Bool.or_eq_true] at hw
      obtain ⟨hmatch, hstatus⟩ := hw
      refine ⟨by rwa [beq_iff_eq] at hstatus, ?_, ?_, ?_, ?_⟩
      · rcases hmatch with (h | h) | h
        · exact .inl h
        · exact .inr (.inl h)
        · exact .inr (.inr h)
      · intro hk
        unfold relevance_score
        rw [if_pos hk]
      · intro hk hl
        unfold relevance_score
        rw [if_neg (by simp [hk]), if_pos hl]
      · intro hk hl
        unfold relevance_score
        rw [if_neg (by simp [hk]), if_neg (by simp [hl])]
        refine ⟨rfl, ?_⟩
        rcases hmatch with (h | h) | h
        · rw [hk] at h; cases h
        · rw [hl] at h; cases h
        · exact h
    · exact List.Pairwise.imp (fun hab => (rankLe_iff q _ _).mp hab)
        (search_sorted db q limit)
  · intro q r hq
    unfold nameLikeMatch
    exact likeMatch_contains _ hq _

end WhatsAppBot
